import Mathlib

/-!
Verification of the generation-request orchestration layer of the
unwritten studio app (src/App.tsx: App, PromptForm, LoadingIndicator).
The definitions below are a shallow embedding of the TypeScript source:
React `useState` fields become record fields, event handlers become pure
state-transition functions, and the user-interface affordances become a
step relation guarded exactly by the conditions under which the
corresponding control is rendered and enabled in the source.
-/

namespace Unwritten

/-- GenerationMode from ./types, the four request shapes. -/
inductive GenerationMode
  | TEXT_TO_VIDEO
  | ANIMATE_IMAGE
  | REFERENCES_TO_VIDEO
  | EXTEND_VIDEO
deriving DecidableEq

/-- VeoModel from ./types: VEO_FAST is the fast engine, VEO the standard one. -/
inductive VeoModel
  | VEO_FAST
  | VEO
deriving DecidableEq

/-- AspectRatio from ./types. -/
inductive AspectRatio
  | LANDSCAPE
  | PORTRAIT
deriving DecidableEq

/-- Resolution from ./types. -/
inductive Resolution
  | P720
  | P1080
deriving DecidableEq

/-- AppState from ./types, used by App for the outcome slot. -/
inductive AppState
  | IDLE
  | LOADING
  | SUCCESS
  | ERROR
deriving DecidableEq

/-- ImageFile from ./types: a raw file handle plus its base64 payload.
The File object is opaque to the logic; we model it by a numeric handle. -/
structure ImageFile where
  file : Nat
  base64 : String
deriving DecidableEq

/-- VideoFile from ./types: same shape as ImageFile, for a video. -/
structure VideoFile where
  file : Nat
  base64 : String
deriving DecidableEq

/-- Video from @google/genai: the opaque remote video object returned by the
service, modelled by a numeric identifier. -/
structure Video where
  id : Nat
deriving DecidableEq

/-- The PromptForm component state: one field per useState hook
(src/App.tsx, PromptForm lines 462-493). -/
structure FormState where
  prompt : String
  model : VeoModel
  aspectRatio : AspectRatio
  resolution : Resolution
  generationMode : GenerationMode
  startFrame : Option ImageFile
  endFrame : Option ImageFile
  referenceImages : List ImageFile
  styleImage : Option ImageFile
  inputVideo : Option VideoFile
  inputVideoObject : Option Video
  isLooping : Bool
deriving DecidableEq

/-- The default form state: App renders PromptForm with
initialValues = null, so every useState takes its fallback value
(prompt empty, VEO_FAST, LANDSCAPE, P720, TEXT_TO_VIDEO, no media,
not looping). -/
def initialFormState : FormState where
  prompt := ""
  model := .VEO_FAST
  aspectRatio := .LANDSCAPE
  resolution := .P720
  generationMode := .TEXT_TO_VIDEO
  startFrame := none
  endFrame := none
  referenceImages := []
  styleImage := none
  inputVideo := none
  inputVideoObject := none
  isLooping := false

/-- The mode-entry useEffect on [generationMode]: entering
REFERENCES_TO_VIDEO forces model := VEO, aspectRatio := LANDSCAPE,
resolution := P720; entering EXTEND_VIDEO forces resolution := P720;
other modes change nothing. -/
def modeEntryEffect (s : FormState) : FormState :=
  match s.generationMode with
  | .REFERENCES_TO_VIDEO =>
      { s with model := .VEO, aspectRatio := .LANDSCAPE, resolution := .P720 }
  | .EXTEND_VIDEO => { s with resolution := .P720 }
  | _ => s

/-- handleSelectMode: sets the mode and clears startFrame, endFrame,
referenceImages, styleImage, inputVideo, inputVideoObject and isLooping;
prompt, model, aspectRatio and resolution are not touched here. -/
def handleSelectMode (s : FormState) (mode : GenerationMode) : FormState :=
  { s with
    generationMode := mode
    startFrame := none
    endFrame := none
    referenceImages := []
    styleImage := none
    inputVideo := none
    inputVideoObject := none
    isLooping := false }

/-- The reference-image add updater exactly as written in the source:
setReferenceImages of imgs appended with img, with no guard of its own. -/
def addReferenceImageRaw (imgs : List ImageFile) (img : ImageFile) :
    List ImageFile :=
  imgs ++ [img]

/-- isRefMode from PromptForm. -/
def isRefMode (m : GenerationMode) : Bool :=
  match m with
  | .REFERENCES_TO_VIDEO => true
  | _ => false

/-- isExtendMode from PromptForm. -/
def isExtendMode (m : GenerationMode) : Bool :=
  match m with
  | .EXTEND_VIDEO => true
  | _ => false

/-- The disabled prop of the Engine select: disabled = isRefMode. -/
def engineDisabled (m : GenerationMode) : Bool := isRefMode m

/-- The disabled prop of the Format (aspect ratio) select:
disabled = isRefMode or isExtendMode. -/
def formatDisabled (m : GenerationMode) : Bool := isRefMode m || isExtendMode m

/-- The disabled prop of the Quality (resolution) select:
disabled = isRefMode or isExtendMode. -/
def qualityDisabled (m : GenerationMode) : Bool := isRefMode m || isExtendMode m

/-- The JavaScript String.prototype.trim call used by the form logic:
drop whitespace characters from both ends of the string, embedded on the
string's character list so that it is kernel-computable. -/
def jsTrim (s : String) : String :=
  ⟨(((s.data.dropWhile Char.isWhitespace).reverse.dropWhile
      Char.isWhitespace)).reverse⟩

/-- isSubmitDisabled, the switch over generationMode in PromptForm:
TEXT_TO_VIDEO is disabled when the trimmed prompt is empty, ANIMATE_IMAGE
when there is no startFrame, REFERENCES_TO_VIDEO when there are no
reference images or the trimmed prompt is empty, EXTEND_VIDEO when there
is no inputVideoObject (the raw inputVideo file is not consulted). -/
def isSubmitDisabled (s : FormState) : Bool :=
  match s.generationMode with
  | .TEXT_TO_VIDEO => jsTrim s.prompt == ""
  | .ANIMATE_IMAGE => s.startFrame.isNone
  | .REFERENCES_TO_VIDEO => s.referenceImages.isEmpty || jsTrim s.prompt == ""
  | .EXTEND_VIDEO => s.inputVideoObject.isNone

/-- selectableModes: the mode selector offers exactly these three modes;
EXTEND_VIDEO is absent. -/
def selectableModes : List GenerationMode :=
  [.TEXT_TO_VIDEO, .ANIMATE_IMAGE, .REFERENCES_TO_VIDEO]

/-- The user interactions PromptForm exposes. Each constructor corresponds
to one control in the rendered form. -/
inductive FormEvent
  | selectMode (m : GenerationMode)
  | setPrompt (p : String)
  | applyPreset (presetPrompt : String)
  | setModel (m : VeoModel)
  | setAspectRatio (a : AspectRatio)
  | setResolution (r : Resolution)
  | addStartFrame (img : ImageFile)
  | removeStartFrame
  | addEndFrame (img : ImageFile)
  | removeEndFrame
  | toggleLoop (checked : Bool)
  | addReferenceImage (img : ImageFile)
  | removeReferenceImage (i : Nat)
  | addInputVideo (v : VideoFile)
  | removeInputVideo

/-- One user interaction on the form. Guards are the rendering and enabled
conditions of the source: the mode menu lists only selectableModes; the
Engine, Format and Quality selects honour their disabled props; the
start/end-frame uploads and the loop checkbox exist only in ANIMATE_IMAGE
(the end-frame upload only while not looping, the checkbox only with a
startFrame present); the reference add tile exists only in
REFERENCES_TO_VIDEO while fewer than 3 references are present; the base
video upload exists only in EXTEND_VIDEO. Selecting a mode runs
handleSelectMode followed by the mode-entry useEffect. An event whose
control is not rendered or is disabled leaves the state unchanged. -/
def formStep (s : FormState) (e : FormEvent) : FormState :=
  match e with
  | .selectMode m =>
      if m ∈ selectableModes then modeEntryEffect (handleSelectMode s m) else s
  | .setPrompt p => { s with prompt := p }
  | .applyPreset p => { s with prompt := p }
  | .setModel m =>
      if engineDisabled s.generationMode then s else { s with model := m }
  | .setAspectRatio a =>
      if formatDisabled s.generationMode then s else { s with aspectRatio := a }
  | .setResolution r =>
      if qualityDisabled s.generationMode then s else { s with resolution := r }
  | .addStartFrame img =>
      if s.generationMode = .ANIMATE_IMAGE then { s with startFrame := some img } else s
  | .removeStartFrame =>
      if s.generationMode = .ANIMATE_IMAGE then
        { s with startFrame := none, isLooping := false }
      else s
  | .addEndFrame img =>
      if s.generationMode = .ANIMATE_IMAGE ∧ s.isLooping = false then
        { s with endFrame := some img }
      else s
  | .removeEndFrame =>
      if s.generationMode = .ANIMATE_IMAGE then { s with endFrame := none } else s
  | .toggleLoop checked =>
      if s.generationMode = .ANIMATE_IMAGE ∧ s.startFrame.isSome then
        { s with isLooping := checked,
                 endFrame := if checked then none else s.endFrame }
      else s
  | .addReferenceImage img =>
      if s.generationMode = .REFERENCES_TO_VIDEO ∧ s.referenceImages.length < 3 then
        { s with referenceImages := addReferenceImageRaw s.referenceImages img }
      else s
  | .removeReferenceImage i =>
      if s.generationMode = .REFERENCES_TO_VIDEO then
        { s with referenceImages := s.referenceImages.eraseIdx i }
      else s
  | .addInputVideo v =>
      if s.generationMode = .EXTEND_VIDEO then { s with inputVideo := some v } else s
  | .removeInputVideo =>
      if s.generationMode = .EXTEND_VIDEO then
        { s with inputVideo := none, inputVideoObject := none }
      else s

/-- Run a list of user interactions from a given state. -/
def runForm (s : FormState) (es : List FormEvent) : FormState :=
  es.foldl formStep s

/-- A form state is reachable when some sequence of user interactions
produces it from the default state. -/
def reachable (s : FormState) : Prop :=
  ∃ es : List FormEvent, s = runForm initialFormState es

/-! ### Media ingestion (fileToBase64) -/

/-- What the FileReader delivers to fileToBase64: either the data URL
produced by readAsDataURL (modelled as its character list) or a read
error. -/
inductive ReadResult
  | success (result : List Char)
  | failure

/-- The errors fileToBase64 can reject with: the FileReader onerror value,
or the explicit Error thrown when no base64 payload can be extracted. -/
inductive ReadError
  | readerError
  | decodeFailed
deriving DecidableEq

/-- The split on the comma character performed by result.split in
fileToBase64, embedded on character lists: splitComma s is the list of
comma-free segments of s, in order. -/
def splitComma : List Char → List (List Char)
  | [] => [[]]
  | c :: cs =>
    match splitComma cs with
    | [] => [[]]
    | cur :: rest =>
      if c = ',' then [] :: cur :: rest else (c :: cur) :: rest

/-- fileToBase64: take index 1 of the comma-split of the reader result and
resolve with it when it is present and non-empty (truthy), otherwise
reject with decodeFailed; a reader error rejects with the reader error. -/
def fileToBase64 (read : ReadResult) : Except ReadError (List Char) :=
  match read with
  | .failure => .error .readerError
  | .success res =>
    match (splitComma res).get? 1 with
    | none => .error .decodeFailed
    | some b => if b = [] then .error .decodeFailed else .ok b

/-! ### Conversation session (Kaspar Hauser chat) -/

/-- The role of a chat message in App state. -/
inductive ChatRole
  | user
  | bot
deriving DecidableEq

/-- One entry of the chatMessages transcript. -/
structure ChatMsg where
  role : ChatRole
  text : String
deriving DecidableEq

/-- The scripted greeting installed by the mount effect of App. -/
def seedGreeting : ChatMsg :=
  ⟨.bot, "Ich bin Kaspar. Welche ungeschriebene Geschichte träumst du heute?"⟩

/-- The transcript right after session start: only the seed greeting. -/
def initialChat : List ChatMsg := [seedGreeting]

/-- The outcome of the single remote text-completion call inside
handleSendMessage: a reply whose text field may be empty (response.text
falsy), or a thrown failure. -/
inductive RemoteChat
  | reply (text : String)
  | failure

/-- handleSendMessage: a blank (whitespace-only) input returns without
touching the transcript; otherwise the user turn is appended and then
exactly one bot turn is appended, whose text is response.text when
truthy, the scripted no-vision line when response.text is falsy, and the
scripted error line when the call throws. -/
def handleSendMessage (msgs : List ChatMsg) (input : String)
    (remote : RemoteChat) : List ChatMsg :=
  if jsTrim input = "" then msgs
  else
    let withUser := msgs ++ [⟨.user, input⟩]
    match remote with
    | .reply t =>
        withUser ++
          [⟨.bot, if t = "" then "Der Nebel ist zu dicht, ich kann gerade nicht sehen..." else t⟩]
    | .failure => withUser ++ [⟨.bot, "Etwas hat meine Sicht getrübt..."⟩]

/-! ### Generation service and outcome slot -/

/-- The pool of object URLs the host environment considers valid: the
identifiers created by URL.createObjectURL and not yet revoked, plus a
fresh-identifier supply. -/
structure UrlRegistry where
  live : List Nat
  next : Nat
deriving DecidableEq

/-- URL.createObjectURL: a fresh identifier becomes live and is returned. -/
def createObjectUrl (r : UrlRegistry) : UrlRegistry × Nat :=
  ({ live := r.live ++ [r.next], next := r.next + 1 }, r.next)

/-- URL.revokeObjectURL: the identifier stops being live. -/
def revokeObjectUrl (r : UrlRegistry) (u : Nat) : UrlRegistry :=
  { r with live := r.live.erase u }

/-- Modelled from the spec: generateVideo of services/geminiService is
imported by App but its source is not under src/. Spec section 4.3 steps
2-4: build the payload, submit and poll to a terminal state, then on
success fetch the media, derive a dereferencing identifier, revoke any
prior identifier held by the previous outcome, and transition to Ready.
We model the identifier lifecycle: the prior outcome's identifier (when
any) is revoked and a fresh identifier is created and returned. -/
def generateVideo (r : UrlRegistry) (prior : Option Nat) : UrlRegistry × Nat :=
  let r1 := match prior with
            | some u => revokeObjectUrl r u
            | none => r
  createObjectUrl r1

/-- A JavaScript thrown value as the catch clause of handleGenerate
distinguishes it: an Error instance carrying its message string, or any
other thrown value. -/
inductive JsValue
  | errorObj (message : String)
  | other
deriving DecidableEq

/-- The message handleGenerate stores on failure:
error.message when the thrown value is an Error instance, otherwise the
generic fallback text. -/
def derivedMessage : JsValue → String
  | .errorObj m => m
  | .other => "Fehler bei der Generierung."

/-- The App-level session state around handleGenerate: the outcome slot
(appState, videoUrl, errorMessage) plus the host's object-URL registry. -/
structure GenSession where
  registry : UrlRegistry
  appState : AppState
  videoUrl : Option Nat
  errorMessage : Option String
deriving DecidableEq

/-- The session at App mount: empty registry, IDLE, no video, no error. -/
def initialSession : GenSession :=
  ⟨⟨[], 0⟩, .IDLE, none, none⟩

/-- How the awaited generateVideo call ends: resolves, or throws e. -/
inductive GenResult
  | success
  | failure (e : JsValue)

/-- The primitive steps handleGenerate performs, in order: state writes on
the App component and the awaited network call. -/
inductive GenAction
  | setAppState (a : AppState)
  | setErrorMessage (m : Option String)
  | networkGenerate
  | installSuccess

/-- The action sequence of handleGenerate for a given call outcome: first
setAppState LOADING and setErrorMessage null, then the awaited
generateVideo network call, then either the success installation
(setVideoUrl, setLastVideoBlob, setLastVideoObject, setAppState SUCCESS)
or the catch clause (setErrorMessage derived from the thrown value,
setAppState ERROR). -/
def handleGenerateActions (res : GenResult) : List GenAction :=
  [.setAppState .LOADING, .setErrorMessage none, .networkGenerate] ++
    match res with
    | .success => [.installSuccess]
    | .failure e => [.setErrorMessage (some (derivedMessage e)), .setAppState .ERROR]

/-- Apply one handleGenerate step to the session. installSuccess runs the
service call on the registry (passing the previous outcome's identifier)
and publishes the Ready outcome; networkGenerate itself does not touch
App state. -/
def applyGenAction (st : GenSession) (a : GenAction) : GenSession :=
  match a with
  | .setAppState s => { st with appState := s }
  | .setErrorMessage m => { st with errorMessage := m }
  | .networkGenerate => st
  | .installSuccess =>
      let p := generateVideo st.registry st.videoUrl
      { st with registry := p.1, videoUrl := some p.2, appState := .SUCCESS }

/-- One full handleGenerate call: fold its action sequence over the
session. The function is total: every call outcome, including a thrown
error, yields a final session state and nothing is re-raised. -/
def handleGenerateRun (st : GenSession) (res : GenResult) : GenSession :=
  (handleGenerateActions res).foldl applyGenAction st

/-- n sequential successful generations from the mount session. -/
def runGenerations : Nat → GenSession
  | 0 => initialSession
  | n + 1 => handleGenerateRun (runGenerations n) .success

/-- The canExtend prop App passes to VideoResult: always false. -/
def canExtend : Bool := false

/-- The onExtend handler App passes to VideoResult: the empty arrow
function, which performs no state update. -/
def onExtend (st : GenSession) : GenSession := st

/-! ### Specification-side definitions, for refinement claims -/

/-- The submission-readiness predicate exactly as the specification's
section 4.2 table words it: TextToVideo needs a prompt non-empty after
trimming; AnimateImage needs a start frame; ReferencesToVideo needs a
non-empty reference list and a non-empty trimmed prompt; ExtendVideo
needs the remote inputVideoHandle to be present. -/
def specReadiness (s : FormState) : Prop :=
  match s.generationMode with
  | .TEXT_TO_VIDEO => jsTrim s.prompt ≠ ""
  | .ANIMATE_IMAGE => s.startFrame.isSome
  | .REFERENCES_TO_VIDEO => s.referenceImages ≠ [] ∧ jsTrim s.prompt ≠ ""
  | .EXTEND_VIDEO => s.inputVideoObject.isSome

/-- The failure message exactly as the claim words it: the text carried by
the error when it carries usable (non-empty) text, and the generic
fallback when it carries none. -/
def claimedFailureMessage : JsValue → String
  | .errorObj m => if m = "" then "Fehler bei der Generierung." else m
  | .other => "Fehler bei der Generierung."

/-! ### Claim C1: submission readiness -/

/-- C1: For every form state, submission is permitted (the submit button is
not disabled) exactly when the mode-specific readiness predicate of the
specification holds; in ExtendVideo mode a raw local video file with no
remote inputVideoObject leaves submission disabled. -/
theorem submit_enabled_iff_ready :
    (∀ s : FormState, isSubmitDisabled s = false ↔ specReadiness s) ∧
    (∀ (s : FormState) (v : VideoFile),
      s.generationMode = .EXTEND_VIDEO → s.inputVideo = some v →
      s.inputVideoObject = none → isSubmitDisabled s = true) := by
  constructor
  · intro s
    rcases s with ⟨p, mo, ar, re, gm, sf, ef, ri, si, iv, ivo, lo⟩
    cases gm <;> simp [isSubmitDisabled, specReadiness]
  · intro s v _hm _hv hobj
    rcases s with ⟨p, mo, ar, re, gm, sf, ef, ri, si, iv, ivo, lo⟩
    cases gm <;> simp_all [isSubmitDisabled]

/-- Witness for C1 at a concrete state: ExtendVideo with a raw local video
but no remote video object is not submittable. -/
theorem submit_enabled_iff_ready_witness :
    isSubmitDisabled
      { initialFormState with
        generationMode := .EXTEND_VIDEO
        inputVideo := some ⟨0, ""⟩ } = true :=
  submit_enabled_iff_ready.2 _ ⟨0, ""⟩ rfl rfl rfl

/-! ### Claim C4: mode switches clear exactly the media fields -/

/-- C4: handleSelectMode clears exactly startFrame, endFrame,
referenceImages, styleImage, inputVideo, inputVideoObject and isLooping,
sets the mode, and preserves prompt, model, aspectRatio and resolution;
after the mode-entry effect, prompt is still preserved, the cleared
fields stay cleared, and model, aspectRatio and resolution are preserved
except where the entered mode forces its defaults. -/
theorem mode_switch_clears_exactly (s : FormState) (m : GenerationMode) :
    (handleSelectMode s m).startFrame = none ∧
    (handleSelectMode s m).endFrame = none ∧
    (handleSelectMode s m).referenceImages = [] ∧
    (handleSelectMode s m).styleImage = none ∧
    (handleSelectMode s m).inputVideo = none ∧
    (handleSelectMode s m).inputVideoObject = none ∧
    (handleSelectMode s m).isLooping = false ∧
    (handleSelectMode s m).generationMode = m ∧
    (handleSelectMode s m).prompt = s.prompt ∧
    (handleSelectMode s m).model = s.model ∧
    (handleSelectMode s m).aspectRatio = s.aspectRatio ∧
    (handleSelectMode s m).resolution = s.resolution ∧
    (modeEntryEffect (handleSelectMode s m)).prompt = s.prompt ∧
    (modeEntryEffect (handleSelectMode s m)).startFrame = none ∧
    (modeEntryEffect (handleSelectMode s m)).endFrame = none ∧
    (modeEntryEffect (handleSelectMode s m)).referenceImages = [] ∧
    (modeEntryEffect (handleSelectMode s m)).styleImage = none ∧
    (modeEntryEffect (handleSelectMode s m)).inputVideo = none ∧
    (modeEntryEffect (handleSelectMode s m)).inputVideoObject = none ∧
    (modeEntryEffect (handleSelectMode s m)).isLooping = false ∧
    (modeEntryEffect (handleSelectMode s m)).model =
      (if m = .REFERENCES_TO_VIDEO then .VEO else s.model) ∧
    (modeEntryEffect (handleSelectMode s m)).aspectRatio =
      (if m = .REFERENCES_TO_VIDEO then .LANDSCAPE else s.aspectRatio) ∧
    (modeEntryEffect (handleSelectMode s m)).resolution =
      (if m = .REFERENCES_TO_VIDEO ∨ m = .EXTEND_VIDEO then .P720
       else s.resolution) := by
  cases m <;> simp [handleSelectMode, modeEntryEffect]

/-! ### Claim C6: mode-entry defaults and disabled settings -/

/-- C6: Entering ReferencesToVideo forces model VEO (standard), aspect
ratio LANDSCAPE and resolution P720, and while that mode is active the
Engine, Format and Quality selects are disabled so the corresponding
edit events are no-ops; entering ExtendVideo forces resolution P720 and
disables the Format and Quality selects. -/
theorem mode_entry_forces_and_disables (s : FormState) :
    (s.generationMode = .REFERENCES_TO_VIDEO →
      (modeEntryEffect s).model = .VEO ∧
      (modeEntryEffect s).aspectRatio = .LANDSCAPE ∧
      (modeEntryEffect s).resolution = .P720 ∧
      engineDisabled s.generationMode = true ∧
      formatDisabled s.generationMode = true ∧
      qualityDisabled s.generationMode = true ∧
      (∀ m, formStep s (.setModel m) = s) ∧
      (∀ a, formStep s (.setAspectRatio a) = s) ∧
      (∀ r, formStep s (.setResolution r) = s)) ∧
    (s.generationMode = .EXTEND_VIDEO →
      (modeEntryEffect s).resolution = .P720 ∧
      formatDisabled s.generationMode = true ∧
      qualityDisabled s.generationMode = true ∧
      (∀ a, formStep s (.setAspectRatio a) = s) ∧
      (∀ r, formStep s (.setResolution r) = s)) := by
  constructor <;> intro h <;>
    simp [modeEntryEffect, formStep, engineDisabled, formatDisabled,
      qualityDisabled, isRefMode, isExtendMode, h]

/-- Witness for C6 at a concrete state in ReferencesToVideo mode. -/
theorem mode_entry_forces_and_disables_witness :
    (modeEntryEffect
      { initialFormState with generationMode := .REFERENCES_TO_VIDEO }).model =
        .VEO ∧
    (formStep { initialFormState with generationMode := .EXTEND_VIDEO }
      (.setResolution .P1080)) =
      { initialFormState with generationMode := .EXTEND_VIDEO } :=
  ⟨((mode_entry_forces_and_disables _).1 rfl).1,
   ((mode_entry_forces_and_disables _).2 rfl).2.2.2.2 .P1080⟩

/-! ### Reachable-state invariant of the form -/

/-- Removing an index never lengthens a list. -/
theorem length_eraseIdx_le (l : List α) (i : Nat) :
    (l.eraseIdx i).length ≤ l.length := by
  induction l generalizing i with
  | nil => simp [List.eraseIdx]
  | cons a l ih =>
    cases i with
    | zero => exact Nat.le_succ _
    | succ i => exact Nat.succ_le_succ (ih i)

/-- The inductive invariant of the form state machine: at most three
reference images, no end frame while looping, and the mode is one the
selector offers. -/
def FormInv (s : FormState) : Prop :=
  s.referenceImages.length ≤ 3 ∧
  (s.isLooping = true → s.endFrame = none) ∧
  s.generationMode ∈ selectableModes

/-- The default form state satisfies the invariant. -/
theorem formInv_initial : FormInv initialFormState := by
  refine ⟨by simp [initialFormState], by simp [initialFormState], ?_⟩
  simp [initialFormState, selectableModes]

/-- Every user interaction preserves the invariant. -/
theorem formInv_step (s : FormState) (e : FormEvent) (h : FormInv s) :
    FormInv (formStep s e) := by
  obtain ⟨h1, h2, h3⟩ := h
  cases e with
  | selectMode m =>
    simp only [formStep]
    split
    · next hm =>
      cases m <;>
        simp_all [handleSelectMode, modeEntryEffect, FormInv, selectableModes]
    · exact ⟨h1, h2, h3⟩
  | setPrompt p => exact ⟨h1, h2, h3⟩
  | applyPreset p => exact ⟨h1, h2, h3⟩
  | setModel m =>
    simp only [formStep]
    split
    · exact ⟨h1, h2, h3⟩
    · exact ⟨h1, h2, h3⟩
  | setAspectRatio a =>
    simp only [formStep]
    split
    · exact ⟨h1, h2, h3⟩
    · exact ⟨h1, h2, h3⟩
  | setResolution r =>
    simp only [formStep]
    split
    · exact ⟨h1, h2, h3⟩
    · exact ⟨h1, h2, h3⟩
  | addStartFrame img =>
    simp only [formStep]
    split
    · exact ⟨h1, h2, h3⟩
    · exact ⟨h1, h2, h3⟩
  | removeStartFrame =>
    simp only [formStep]
    split
    · exact ⟨h1, by simp, h3⟩
    · exact ⟨h1, h2, h3⟩
  | addEndFrame img =>
    simp only [formStep]
    split
    · next hg =>
      refine ⟨h1, ?_, h3⟩
      intro hl
      have hc : s.isLooping = true := hl
      rw [hg.2] at hc
      cases hc
    · exact ⟨h1, h2, h3⟩
  | removeEndFrame =>
    simp only [formStep]
    split
    · exact ⟨h1, by simp, h3⟩
    · exact ⟨h1, h2, h3⟩
  | toggleLoop checked =>
    simp only [formStep]
    split
    · refine ⟨h1, ?_, h3⟩
      intro hl
      have hc : checked = true := hl
      show (if checked then none else s.endFrame) = none
      rw [hc]
      rfl
    · exact ⟨h1, h2, h3⟩
  | addReferenceImage img =>
    simp only [formStep]
    split
    · next hg =>
      refine ⟨?_, h2, h3⟩
      have := hg.2
      simp only [addReferenceImageRaw, List.length_append, List.length_cons,
        List.length_nil]
      omega
    · exact ⟨h1, h2, h3⟩
  | removeReferenceImage i =>
    simp only [formStep]
    split
    · exact ⟨Nat.le_trans (length_eraseIdx_le _ _) h1, h2, h3⟩
    · exact ⟨h1, h2, h3⟩
  | addInputVideo v =>
    simp only [formStep]
    split
    · exact ⟨h1, h2, h3⟩
    · exact ⟨h1, h2, h3⟩
  | removeInputVideo =>
    simp only [formStep]
    split
    · exact ⟨h1, h2, h3⟩
    · exact ⟨h1, h2, h3⟩

/-- The invariant propagates along any interaction trace. -/
theorem runForm_inv (es : List FormEvent) (s : FormState) (h : FormInv s) :
    FormInv (runForm s es) := by
  induction es generalizing s with
  | nil => exact h
  | cons e es ih => exact ih _ (formInv_step s e h)

/-- Every reachable form state satisfies the invariant. -/
theorem reachable_formInv (s : FormState) (h : reachable s) : FormInv s := by
  obtain ⟨es, rfl⟩ := h
  exact runForm_inv es _ formInv_initial

/-! ### Claim C3: the reference-image cap -/

/-- C3 (amended): in every reachable state the reference list has at most
three entries, and a fourth add through the form is a no-op because the
add affordance is not rendered at three entries; the underlying add
updater itself does not refuse (see the counterexample). -/
theorem reference_images_capped (s : FormState) (h : reachable s) :
    s.referenceImages.length ≤ 3 ∧
    (∀ img : ImageFile, s.referenceImages.length = 3 →
      formStep s (.addReferenceImage img) = s) := by
  refine ⟨(reachable_formInv s h).1, ?_⟩
  intro img h3
  simp [formStep, h3]

/-- A concrete interaction trace reaching three reference images. -/
def threeRefTrace : List FormEvent :=
  [.selectMode .REFERENCES_TO_VIDEO,
   .addReferenceImage ⟨0, ""⟩, .addReferenceImage ⟨1, ""⟩,
   .addReferenceImage ⟨2, ""⟩]

/-- Witness for C3 at the concrete three-image state. -/
theorem reference_images_capped_witness :
    (runForm initialFormState threeRefTrace).referenceImages.length ≤ 3 ∧
    formStep (runForm initialFormState threeRefTrace)
      (.addReferenceImage ⟨3, ""⟩) =
      runForm initialFormState threeRefTrace :=
  ⟨(reference_images_capped _ ⟨threeRefTrace, rfl⟩).1,
   (reference_images_capped _ ⟨threeRefTrace, rfl⟩).2 ⟨3, ""⟩ (by decide)⟩

/-- C3 counterexample: the add updater as written in the source does not
itself refuse a fourth image: applied to a full three-image list it
returns a four-image list, so the sequence does not stay unchanged. -/
theorem reference_images_fourth_add_counterexample :
    (addReferenceImageRaw [⟨0, ""⟩, ⟨1, ""⟩, ⟨2, ""⟩] ⟨3, ""⟩).length = 4 ∧
    addReferenceImageRaw [⟨0, ""⟩, ⟨1, ""⟩, ⟨2, ""⟩] ⟨3, ""⟩ ≠
      [⟨0, ""⟩, ⟨1, ""⟩, ⟨2, ""⟩] := by
  constructor
  · rfl
  · decide

/-! ### Claim C5: looping excludes an end frame -/

/-- C5: in every reachable state, isLooping and a present endFrame never
hold together; while looping, the add-end-frame interaction is a no-op
(the upload is not rendered), and checking the loop box clears the end
frame. -/
theorem looping_excludes_end_frame (s : FormState) (h : reachable s) :
    ¬ (s.isLooping = true ∧ s.endFrame ≠ none) ∧
    (∀ img : ImageFile, s.isLooping = true →
      formStep s (.addEndFrame img) = s) ∧
    (s.generationMode = .ANIMATE_IMAGE → s.startFrame.isSome →
      (formStep s (.toggleLoop true)).endFrame = none) := by
  refine ⟨?_, ?_, ?_⟩
  · rintro ⟨hl, he⟩
    exact he ((reachable_formInv s h).2.1 hl)
  · intro img hl
    simp [formStep, hl]
  · intro hm hs
    simp [formStep, hm, hs]

/-- A concrete trace that uploads an end frame and then turns looping on. -/
def loopTrace : List FormEvent :=
  [.selectMode .ANIMATE_IMAGE, .addStartFrame ⟨0, ""⟩,
   .addEndFrame ⟨1, ""⟩, .toggleLoop true]

/-- Witness for C5 at the concrete looping state. -/
theorem looping_excludes_end_frame_witness :
    ¬ ((runForm initialFormState loopTrace).isLooping = true ∧
       (runForm initialFormState loopTrace).endFrame ≠ none) :=
  (looping_excludes_end_frame _ ⟨loopTrace, rfl⟩).1

/-! ### Claim C10: ExtendVideo is unreachable -/

/-- C10: starting from the default form state, no interaction sequence
makes the mode EXTEND_VIDEO (the selector offers only the other three
modes), the extend affordance on a finished result is permanently
disabled, and its handler is a no-op. -/
theorem extend_mode_unreachable (s : FormState) (h : reachable s) :
    s.generationMode ≠ .EXTEND_VIDEO ∧
    canExtend = false ∧
    (∀ st : GenSession, onExtend st = st) := by
  refine ⟨?_, rfl, fun _ => rfl⟩
  intro hmode
  have h3 := (reachable_formInv s h).2.2
  rw [hmode] at h3
  simp [selectableModes] at h3

/-- Witness for C10 at a concrete reachable state. -/
theorem extend_mode_unreachable_witness :
    (runForm initialFormState
      [FormEvent.selectMode .ANIMATE_IMAGE]).generationMode ≠
      GenerationMode.EXTEND_VIDEO :=
  (extend_mode_unreachable _ ⟨[FormEvent.selectMode .ANIMATE_IMAGE], rfl⟩).1

/-! ### Claim C9: first chat turn -/

/-- C9: Sending Hallo as the first user turn yields a transcript of
exactly three entries, in order: the scripted seed greeting (a bot turn
fixed at session start, independent of the remote call's outcome), the
user turn, then a bot turn. -/
theorem first_hallo_transcript (remote : RemoteChat) :
    (handleSendMessage initialChat "Hallo" remote).length = 3 ∧
    (handleSendMessage initialChat "Hallo" remote).get? 0 = some seedGreeting ∧
    seedGreeting.role = .bot ∧
    (handleSendMessage initialChat "Hallo" remote).get? 1 =
      some ⟨.user, "Hallo"⟩ ∧
    ∃ t, (handleSendMessage initialChat "Hallo" remote).get? 2 =
      some ⟨.bot, t⟩ := by
  have htrim : (jsTrim "Hallo" = "") = False := by
    simp only [eq_iff_iff, iff_false]
    decide
  cases remote <;>
    simp [handleSendMessage, initialChat, htrim, seedGreeting]

/-! ### Claim C2: a single live dereferencing identifier -/

/-- One successful handleGenerate call, written out: the service consumes
the previous outcome's identifier, the session publishes the fresh one. -/
theorem handleGenerateRun_success (st : GenSession) :
    handleGenerateRun st .success =
      { st with
        registry := (generateVideo st.registry st.videoUrl).1
        videoUrl := some (generateVideo st.registry st.videoUrl).2
        appState := .SUCCESS
        errorMessage := none } := rfl

/-- The outcome-slot invariant: the live object URLs are exactly the one
held by the current Ready outcome (none before the first success), and
every installed identifier is below the registry's fresh supply. -/
def SessionUrlInv (st : GenSession) : Prop :=
  match st.videoUrl with
  | none => st.registry.live = []
  | some u => st.registry.live = [u] ∧ u < st.registry.next

/-- The mount session satisfies the outcome-slot invariant. -/
theorem sessionUrlInv_initial : SessionUrlInv initialSession := rfl

/-- A successful generation preserves the outcome-slot invariant: the
prior identifier is revoked and only the fresh one stays live. -/
theorem sessionUrlInv_success (st : GenSession) (h : SessionUrlInv st) :
    SessionUrlInv (handleGenerateRun st .success) := by
  rw [handleGenerateRun_success]
  unfold SessionUrlInv at h ⊢
  cases hv : st.videoUrl with
  | none =>
    rw [hv] at h
    simp [generateVideo, createObjectUrl, hv, h]
  | some u =>
    rw [hv] at h
    simp [generateVideo, createObjectUrl, revokeObjectUrl, hv, h.1]

/-- The outcome-slot invariant holds after any number of sequential
successful generations. -/
theorem runGenerations_inv (n : Nat) : SessionUrlInv (runGenerations n) := by
  induction n with
  | zero => exact sessionUrlInv_initial
  | succ n ih => exact sessionUrlInv_success _ ih

/-- C2: across any number of sequential successful generations at most one
object URL is live; when a Ready outcome is installed its identifier is
the only live one; and the previous outcome's identifier is no longer
live once the next success installs its own. -/
theorem single_live_object_url (n : Nat) :
    (runGenerations n).registry.live.length ≤ 1 ∧
    (∀ u : Nat, (runGenerations n).videoUrl = some u →
      (runGenerations n).registry.live = [u] ∧
      u ∉ (runGenerations (n + 1)).registry.live) := by
  have h := runGenerations_inv n
  unfold SessionUrlInv at h
  constructor
  · cases hv : (runGenerations n).videoUrl with
    | none => rw [hv] at h; simp [h]
    | some u => rw [hv] at h; simp [h.1]
  · intro u hu
    rw [hu] at h
    refine ⟨h.1, ?_⟩
    rw [show runGenerations (n + 1) =
          handleGenerateRun (runGenerations n) .success from rfl,
        handleGenerateRun_success]
    simp [generateVideo, revokeObjectUrl, createObjectUrl, hu, h.1]
    exact Nat.ne_of_lt h.2

/-- Witness for C2 after the first generation: identifier 0 is the only
live URL and is revoked by the second generation. -/
theorem single_live_object_url_witness :
    (runGenerations 1).registry.live = [0] ∧
    0 ∉ (runGenerations 2).registry.live :=
  (single_live_object_url 1).2 0 rfl

/-! ### Claim C7: pending first and failure handling -/

/-- C7 counterexample: an Error instance with an empty message carries no
usable text, yet handleGenerate stores the empty message, not the generic
fallback the claim requires. -/
theorem generic_fallback_counterexample :
    (handleGenerateRun initialSession (.failure (.errorObj ""))).errorMessage =
      some "" ∧
    claimedFailureMessage (.errorObj "") = "Fehler bei der Generierung." ∧
    (handleGenerateRun initialSession (.failure (.errorObj ""))).errorMessage ≠
      some (claimedFailureMessage (.errorObj "")) := by
  refine ⟨rfl, rfl, ?_⟩
  decide

/-- C7 (amended): handleGenerate sets the outcome to LOADING as its very
first action, strictly before the network call; a call that throws ends
in ERROR with errorMessage the thrown Error's message when the value is
an Error instance (even when that message is empty) and the generic
fallback otherwise, leaving the installed video untouched; a resolving
call ends in SUCCESS; and handleGenerateRun is a total function, so no
exception escapes the handler. -/
theorem generate_pending_first_and_failure (st : GenSession) (e : JsValue) :
    (handleGenerateActions .success).head? =
      some (.setAppState .LOADING) ∧
    (handleGenerateActions (.failure e)).head? =
      some (.setAppState .LOADING) ∧
    GenAction.networkGenerate ∈ (handleGenerateActions .success).tail ∧
    GenAction.networkGenerate ∈ (handleGenerateActions (.failure e)).tail ∧
    (handleGenerateRun st (.failure e)).appState = .ERROR ∧
    (handleGenerateRun st (.failure e)).errorMessage =
      some (derivedMessage e) ∧
    (handleGenerateRun st (.failure e)).videoUrl = st.videoUrl ∧
    (handleGenerateRun st .success).appState = .SUCCESS := by
  refine ⟨rfl, rfl, ?_, ?_, rfl, rfl, rfl, rfl⟩ <;>
    simp [handleGenerateActions]

/-! ### Claim C8: ingestion strips the data-URL framing -/

/-- The one-step unfolding of splitComma on a cons cell. -/
theorem splitComma_cons (c : Char) (cs : List Char) :
    splitComma (c :: cs) =
      match splitComma cs with
      | [] => [[]]
      | cur :: rest =>
        if c = ',' then [] :: cur :: rest else (c :: cur) :: rest := rfl

/-- splitComma never returns an empty segment list. -/
theorem splitComma_ne_nil (s : List Char) : splitComma s ≠ [] := by
  cases s with
  | nil => simp [splitComma]
  | cons c cs =>
    rw [splitComma_cons]
    cases h : splitComma cs with
    | nil => simp
    | cons cur rest => by_cases hc : c = ',' <;> simp [hc]

/-- On a comma-free string, splitComma returns the single whole segment. -/
theorem splitComma_no_comma (s : List Char) (h : (',' : Char) ∉ s) :
    splitComma s = [s] := by
  induction s with
  | nil => rfl
  | cons c cs ih =>
    have hc : c ≠ ',' := fun hcc => h (hcc ▸ List.mem_cons_self c cs)
    have hcs : (',' : Char) ∉ cs := fun hm => h (List.mem_cons_of_mem c hm)
    rw [splitComma_cons, ih hcs]
    simp [hc]

/-- splitComma of a comma-free preamble, the comma, then the remainder:
the preamble is the first segment, the remainder splits on its own. -/
theorem splitComma_append (a b : List Char) (ha : (',' : Char) ∉ a) :
    splitComma (a ++ ',' :: b) = a :: splitComma b := by
  induction a with
  | nil =>
    rw [List.nil_append, splitComma_cons]
    cases h : splitComma b with
    | nil => exact absurd h (splitComma_ne_nil b)
    | cons cur rest => simp
  | cons c a ih =>
    have hc : c ≠ ',' := fun hcc => ha (hcc ▸ List.mem_cons_self c a)
    have has : (',' : Char) ∉ a := fun hm => ha (List.mem_cons_of_mem c hm)
    rw [List.cons_append, splitComma_cons, ih has]
    simp [hc]

/-- C8: when the reader result is a data URL (a comma-free framing segment,
the comma, then the comma-free base64 payload), ingestion returns exactly
the payload with the framing stripped when the payload is non-empty,
fails with the decode error exactly when the stripped payload is empty,
and fails with the reader error exactly when the underlying read errors. -/
theorem ingest_strips_framing (scheme payload : List Char)
    (h1 : (',' : Char) ∉ scheme) (h2 : (',' : Char) ∉ payload) :
    (payload ≠ [] →
      fileToBase64 (.success (scheme ++ ',' :: payload)) = .ok payload) ∧
    (payload = [] →
      fileToBase64 (.success (scheme ++ ',' :: payload)) =
        .error .decodeFailed) ∧
    fileToBase64 .failure = .error .readerError := by
  have hs := splitComma_append scheme payload h1
  have hp := splitComma_no_comma payload h2
  refine ⟨?_, ?_, rfl⟩
  · intro h
    simp [fileToBase64, hs, hp, h]
  · intro h
    subst h
    simp [fileToBase64, hs, hp]

/-- Witness for C8 on a concrete data URL with payload QQ. -/
theorem ingest_strips_framing_witness :
    fileToBase64 (.success
      (['d', 'a', 't', 'a', ':'] ++ ',' :: ['Q', 'Q'])) = .ok ['Q', 'Q'] :=
  (ingest_strips_framing ['d', 'a', 't', 'a', ':'] ['Q', 'Q']
    (by decide) (by decide)).1 (by decide)

end Unwritten
